import Mathlib

/-!
Verification of the csg.js primitive generators (elliptic cylinder, cylinder,
ellipsoid, sphere) against their natural-language specification.

The generators `cylinderElliptic`/`cylinder` are embedded from
src/src/primitives/cylinderElliptic.js and `ellipsoid`/`sphere` from the
unnamed primitives source file.  The vector, polygon and solid-mesh helpers
(`vec3`, `poly3`, `geom3`) and the tolerance constant `EPS` are consumed by
those files from modules that are not part of the sources; they are modelled
from the specification (sections 3, 4.1-4.3 and 6).

JavaScript numbers are modelled as real numbers, `%` on non-negative reals as
floor-based remainder, and a thrown `Error` as `Except.error` carrying the
message string.
-/

open Real

/-- Modelled from the spec: a Vector3 is three real-valued components. -/
structure Vec3 where
  x : ℝ
  y : ℝ
  z : ℝ

noncomputable instance : DecidableEq Vec3 := Classical.decEq _

namespace vec3

/-- Modelled from the spec: vec3.fromValues builds a vector from components. -/
def fromValues (x y z : ℝ) : Vec3 := ⟨x, y, z⟩

/-- Modelled from the spec: componentwise vector addition.  The second
argument may be a JavaScript array (e.g. the center), read as a vector. -/
def add (a b : Vec3) : Vec3 := ⟨a.x + b.x, a.y + b.y, a.z + b.z⟩

/-- Modelled from the spec: componentwise vector subtraction. -/
def subtract (a b : Vec3) : Vec3 := ⟨a.x - b.x, a.y - b.y, a.z - b.z⟩

/-- Modelled from the spec: scalar multiple, scalar first as in the source
calls vec3.scale(amount, vector). -/
def scale (s : ℝ) (v : Vec3) : Vec3 := ⟨s * v.x, s * v.y, s * v.z⟩

/-- Modelled from the spec: dot product. -/
def dot (a b : Vec3) : ℝ := a.x * b.x + a.y * b.y + a.z * b.z

/-- Modelled from the spec: cross product. -/
def cross (a b : Vec3) : Vec3 :=
  ⟨a.y * b.z - a.z * b.y, a.z * b.x - a.x * b.z, a.x * b.y - a.y * b.x⟩

/-- Modelled from the spec: Euclidean length. -/
noncomputable def length (v : Vec3) : ℝ := Real.sqrt (dot v v)

/-- Modelled from the spec: normalization (undefined for zero input; callers
guarantee non-zero). -/
noncomputable def unit (v : Vec3) : Vec3 := scale (1 / length v) v

/-- Modelled from the spec (design note on the arbitrary orthogonal seed):
vec3.random, as consumed by the cylinder generator, must deterministically
return a vector not parallel to the given one - the global X axis, or the Y
axis when the input is parallel to X. -/
noncomputable def random (v : Vec3) : Vec3 :=
  if cross v ⟨1, 0, 0⟩ = (⟨0, 0, 0⟩ : Vec3) then ⟨0, 1, 0⟩ else ⟨1, 0, 0⟩

/-- Modelled from the spec: a JavaScript numeric array read as a vector via
its first three entries. -/
def fromList (a : List ℝ) : Vec3 := ⟨a.getD 0 0, a.getD 1 0, a.getD 2 0⟩

end vec3

/-- Modelled from the spec: a Polygon is an ordered sequence of vertices
(the derived supporting plane is not used by any generator claim and is not
modelled). -/
structure Poly3 where
  vertices : List Vec3

/-- Modelled from the spec: poly3.fromPoints records the ordered points;
construction does not reorder or dedupe. -/
def poly3.fromPoints (points : List Vec3) : Poly3 := ⟨points⟩

/-- Modelled from the spec: a Solid Mesh is an ordered sequence of polygons. -/
structure Geom3 where
  polygons : List Poly3

/-- Modelled from the spec: geom3.create wraps a sequence of polygons into a
mesh record with no further computation. -/
def geom3.create (polygons : List Poly3) : Geom3 := ⟨polygons⟩

/-- The directed edges of a polygon: consecutive vertex pairs, cyclically. -/
def poly3.edges (p : Poly3) : List (Vec3 × Vec3) :=
  p.vertices.zip (p.vertices.rotate 1)

/-- All directed edges of a mesh. -/
def geom3.edges (g : Geom3) : List (Vec3 × Vec3) :=
  g.polygons.flatMap poly3.edges

/-- Modelled from the spec: the numeric tolerance constant EPS consumed from
the constants module (not under the sources); a small positive tolerance,
1e-5 as in csg.js, used here for closed evaluations.  The generators are
additionally parameterized over the tolerance since the spec treats it as an
injected value. -/
noncomputable def EPS : ℝ := 1 / 100000

/-- JavaScript remainder x % y for non-negative x and positive y
(floor-based remainder agrees with the truncating JS semantics there). -/
noncomputable def jsmod (x y : ℝ) : ℝ := x - y * (⌊x / y⌋ : ℤ)

/-- Whether an Except value carries a successful result. -/
def isOkE {α : Type} (e : Except String α) : Bool :=
  match e with
  | Except.ok _ => true
  | Except.error _ => false

/-- Decides whether the character list s starts with the character list p. -/
def startsWithChars : List Char → List Char → Bool
  | [], _ => true
  | _ :: _, [] => false
  | a :: as, b :: bs => a == b && startsWithChars as bs

/-- Decides whether p occurs as a contiguous run inside the second list. -/
def containsChars (p : List Char) : List Char → Bool
  | [] => p.isEmpty
  | b :: bs => startsWithChars p (b :: bs) || containsChars p bs

/-- Whether the string pat occurs inside s; used to formalize an error
message "naming" a configuration field. -/
def strContains (s pat : String) : Bool := containsChars pat.data s.data

/-- Options of cylinderElliptic (source lines 26-35); unspecified fields of a
call take these defaults via Object.assign. -/
structure CylOpts where
  center : List ℝ
  height : ℝ
  startRadius : ℝ × ℝ
  startAngle : ℝ
  endRadius : ℝ × ℝ
  endAngle : ℝ
  segments : ℤ

/-- Defaults of cylinderElliptic (source lines 26-34). -/
noncomputable def cylEllipticDefaults : CylOpts :=
  ⟨[0, 0, 0], 2, (1, 1), 0, (1, 1), Real.pi * 2, 12⟩

/-- Options of the scalar-radius cylinder (source lines 138-146). -/
structure CylinderOpts where
  center : List ℝ
  height : ℝ
  startRadius : ℝ
  startAngle : ℝ
  endRadius : ℝ
  endAngle : ℝ
  segments : ℤ

/-- Defaults of cylinder (source lines 138-146). -/
noncomputable def cylinderDefaults : CylinderOpts :=
  ⟨[0, 0, 0], 2, 1, 0, 1, Real.pi * 2, 12⟩

/-- Normalized start angle (source line 49). -/
noncomputable def cylStartAngleN (o : CylOpts) : ℝ := jsmod o.startAngle (Real.pi * 2)

/-- Normalized end angle (source line 50). -/
noncomputable def cylEndAngleN (o : CylOpts) : ℝ := jsmod o.endAngle (Real.pi * 2)

/-- Effective rotation sweep (source lines 52-58): full 2pi when the
normalized angles agree, their difference otherwise, wrapping through 0. -/
noncomputable def cylRotation (o : CylOpts) : ℝ :=
  if cylStartAngleN o < cylEndAngleN o then cylEndAngleN o - cylStartAngleN o
  else if cylStartAngleN o > cylEndAngleN o then
    cylEndAngleN o + (Real.pi * 2 - cylStartAngleN o)
  else Real.pi * 2

/-- Smallest of the four radius components (source line 60). -/
noncomputable def cylMinRadius (o : CylOpts) : ℝ :=
  min (min (min o.startRadius.1 o.startRadius.2) o.endRadius.1) o.endRadius.2

/-- Minimum significant rotation derived from the smallest radius and the
tolerance (source lines 61-62). -/
noncomputable def cylMinAngle (eps : ℝ) (o : CylOpts) : ℝ :=
  Real.arccos ((cylMinRadius o * cylMinRadius o + cylMinRadius o * cylMinRadius o
      - eps * eps) / (2 * (cylMinRadius o * cylMinRadius o)))

/-- Number of angular slices (source line 65). -/
noncomputable def cylSlices (o : CylOpts) : ℕ :=
  (⌊(o.segments : ℝ) * (cylRotation o / (Real.pi * 2))⌋).toNat

/-- Bottom axis point (source line 67). -/
noncomputable def cylStart (o : CylOpts) : Vec3 := vec3.fromValues 0 0 (-(o.height / 2))

/-- Top axis point (source line 68). -/
noncomputable def cylEnd (o : CylOpts) : Vec3 := vec3.fromValues 0 0 (o.height / 2)

/-- Axis ray (source line 69). -/
noncomputable def cylRay (o : CylOpts) : Vec3 := vec3.subtract (cylEnd o) (cylStart o)

/-- Frame axis Z (source line 71). -/
noncomputable def cylAxisZ (o : CylOpts) : Vec3 := vec3.unit (cylRay o)

/-- Frame axis X (source line 72). -/
noncomputable def cylAxisX (o : CylOpts) : Vec3 := vec3.unit (vec3.random (cylAxisZ o))

/-- Frame axis Y (source line 73). -/
noncomputable def cylAxisY (o : CylOpts) : Vec3 :=
  vec3.unit (vec3.cross (cylAxisX o) (cylAxisZ o))

/-- Surface point sampler (source lines 75-80). -/
noncomputable def cylPointFn (o : CylOpts) (stack slice : ℝ) (radius : ℝ × ℝ) : Vec3 :=
  let angle := slice * cylRotation o + cylStartAngleN o
  let out := vec3.add (vec3.scale (radius.1 * Real.cos angle) (cylAxisX o))
      (vec3.scale (radius.2 * Real.sin angle) (cylAxisY o))
  vec3.add (vec3.add (vec3.scale stack (cylRay o)) (cylStart o)) out

/-- Polygon builder translating every point by the center (source lines
83-86). -/
noncomputable def cylFromPoints (o : CylOpts) (points : List Vec3) : Poly3 :=
  poly3.fromPoints (points.map (fun point => vec3.add point (vec3.fromList o.center)))

/-- Side-wall and cap polygons of the angular slices (source lines 88-107):
per slice, a single wall quad plus one cap triangle at each end when the two
radius pairs agree, and two wall triangles plus the cap triangles when they
differ. -/
noncomputable def cylWall (o : CylOpts) : List Poly3 :=
  (List.range (cylSlices o)).flatMap (fun i =>
    let t0 : ℝ := (i : ℝ) / (cylSlices o : ℝ)
    let t1 : ℝ := ((i : ℝ) + 1) / (cylSlices o : ℝ)
    if o.endRadius.1 = o.startRadius.1 ∧ o.endRadius.2 = o.startRadius.2 then
      [cylFromPoints o [cylStart o, cylPointFn o 0 t0 o.endRadius, cylPointFn o 0 t1 o.endRadius],
       cylFromPoints o [cylPointFn o 0 t1 o.endRadius, cylPointFn o 0 t0 o.endRadius,
         cylPointFn o 1 t0 o.endRadius, cylPointFn o 1 t1 o.endRadius],
       cylFromPoints o [cylEnd o, cylPointFn o 1 t1 o.endRadius, cylPointFn o 1 t0 o.endRadius]]
    else
      (if o.startRadius.1 > 0 then
        [cylFromPoints o [cylStart o, cylPointFn o 0 t0 o.startRadius, cylPointFn o 0 t1 o.startRadius],
         cylFromPoints o [cylPointFn o 0 t0 o.startRadius, cylPointFn o 1 t0 o.endRadius,
           cylPointFn o 0 t1 o.startRadius]]
      else []) ++
      (if o.endRadius.1 > 0 then
        [cylFromPoints o [cylEnd o, cylPointFn o 1 t1 o.endRadius, cylPointFn o 1 t0 o.endRadius],
         cylFromPoints o [cylPointFn o 1 t0 o.endRadius, cylPointFn o 1 t1 o.endRadius,
           cylPointFn o 0 t1 o.startRadius]]
      else []))

/-- The four wedge end-cap wall polygons of a partial sweep (source lines
109-112). -/
noncomputable def cylWedge (o : CylOpts) : List Poly3 :=
  [cylFromPoints o [cylStart o, cylEnd o, cylPointFn o 0 0 o.startRadius],
   cylFromPoints o [cylPointFn o 0 0 o.startRadius, cylEnd o, cylPointFn o 1 0 o.endRadius],
   cylFromPoints o [cylStart o, cylPointFn o 0 1 o.startRadius, cylEnd o],
   cylFromPoints o [cylPointFn o 0 1 o.startRadius, cylPointFn o 1 1 o.endRadius, cylEnd o]]

/-- The elliptic cylinder generator (source lines 25-116): eager validation
of each configuration field, the insufficient-rotation check, then assembly
of the wall polygons and, for a partial sweep, the four wedge polygons. -/
noncomputable def cylinderElliptic (eps : ℝ) (o : CylOpts) : Except String Geom3 :=
  if o.center.length < 3 then Except.error "center must contain X, Y and Z values"
  else if o.height < eps * 2 then Except.error "height must be larger then zero"
  else if o.endRadius.1 ≤ 0 ∨ o.startRadius.1 ≤ 0 ∨ o.endRadius.2 ≤ 0 ∨ o.startRadius.2 ≤ 0 then
    Except.error "endRadus and startRadius should be positive"
  else if o.startAngle < 0 ∨ o.endAngle < 0 then
    Except.error "startAngle and endAngle must be positive"
  else if o.segments < 4 then Except.error "segments must be four or more"
  else if cylRotation o < cylMinAngle eps o then
    Except.error "startAngle and endAngle to not define a significant rotation"
  else
    Except.ok (geom3.create (cylWall o ++
      (if cylRotation o < Real.pi * 2 then cylWedge o else [])))

/-- The scalar-radius cylinder generator (source lines 137-160): forwards to
cylinderElliptic with both radius pairs doubled. -/
noncomputable def cylinder (eps : ℝ) (o : CylinderOpts) : Except String Geom3 :=
  cylinderElliptic eps
    { center := o.center
      height := o.height
      startRadius := (o.startRadius, o.startRadius)
      startAngle := o.startAngle
      endRadius := (o.endRadius, o.endRadius)
      endAngle := o.endAngle
      segments := o.segments }

/-- Options of ellipsoid; axes is an array of three base vectors. -/
structure EllOpts where
  center : List ℝ
  radius : List ℝ
  segments : ℤ
  axes : Vec3 × Vec3 × Vec3

/-- Defaults of ellipsoid. -/
def ellipsoidDefaults : EllOpts :=
  ⟨[0, 0, 0], [1, 1, 1], 12, (⟨1, 0, 0⟩, ⟨0, -1, 0⟩, ⟨0, 0, 1⟩)⟩

/-- Frame vector along X: the first axis normalized then scaled by the first
radius component. -/
noncomputable def ellXvector (o : EllOpts) : Vec3 :=
  vec3.scale (o.radius.getD 0 0) (vec3.unit o.axes.1)

/-- Frame vector along Y. -/
noncomputable def ellYvector (o : EllOpts) : Vec3 :=
  vec3.scale (o.radius.getD 1 0) (vec3.unit o.axes.2.1)

/-- Frame vector along Z. -/
noncomputable def ellZvector (o : EllOpts) : Vec3 :=
  vec3.scale (o.radius.getD 2 0) (vec3.unit o.axes.2.2)

/-- Latitude step count: Math.round(segments / 4). -/
noncomputable def ellQsegments (o : EllOpts) : ℕ :=
  (⌊(o.segments : ℝ) / 4 + 1 / 2⌋).toNat

/-- Equatorial point for longitude step s1. -/
noncomputable def ellCylinderPoint (o : EllOpts) (s1 : ℕ) : Vec3 :=
  let angle := Real.pi * 2 * (s1 : ℝ) / (o.segments : ℝ)
  vec3.add (vec3.scale (Real.cos angle) (ellXvector o))
    (vec3.scale (Real.sin angle) (ellYvector o))

/-- Corner points of the upper-hemisphere patch of cell (s1, s2), in
generation order: the pitch contribution is subtracted; the far corner is
omitted in the last latitude row. -/
noncomputable def ellUpperPts (o : EllOpts) (s1 s2 : ℕ) : List Vec3 :=
  let c := vec3.fromList o.center
  let prevcyl := ellCylinderPoint o (s1 - 1)
  let cyl := ellCylinderPoint o s1
  let pitch := 0.5 * Real.pi * (s2 : ℝ) / (ellQsegments o : ℝ)
  let prevpitch := 0.5 * Real.pi * ((s2 : ℝ) - 1) / (ellQsegments o : ℝ)
  [vec3.add c (vec3.subtract (vec3.scale (Real.cos prevpitch) prevcyl)
      (vec3.scale (Real.sin prevpitch) (ellZvector o))),
   vec3.add c (vec3.subtract (vec3.scale (Real.cos prevpitch) cyl)
      (vec3.scale (Real.sin prevpitch) (ellZvector o)))] ++
  (if s2 < ellQsegments o then
    [vec3.add c (vec3.subtract (vec3.scale (Real.cos pitch) cyl)
        (vec3.scale (Real.sin pitch) (ellZvector o)))]
  else []) ++
  [vec3.add c (vec3.subtract (vec3.scale (Real.cos pitch) prevcyl)
      (vec3.scale (Real.sin pitch) (ellZvector o)))]

/-- Corner points of the lower-hemisphere patch of cell (s1, s2) in the same
generation order as the upper patch, with the pitch contribution added
instead of subtracted; the source reverses this list before emitting the
polygon. -/
noncomputable def ellLowerPts (o : EllOpts) (s1 s2 : ℕ) : List Vec3 :=
  let c := vec3.fromList o.center
  let prevcyl := ellCylinderPoint o (s1 - 1)
  let cyl := ellCylinderPoint o s1
  let pitch := 0.5 * Real.pi * (s2 : ℝ) / (ellQsegments o : ℝ)
  let prevpitch := 0.5 * Real.pi * ((s2 : ℝ) - 1) / (ellQsegments o : ℝ)
  [vec3.add c (vec3.add (vec3.scale (Real.cos prevpitch) prevcyl)
      (vec3.scale (Real.sin prevpitch) (ellZvector o))),
   vec3.add c (vec3.add (vec3.scale (Real.cos prevpitch) cyl)
      (vec3.scale (Real.sin prevpitch) (ellZvector o)))] ++
  (if s2 < ellQsegments o then
    [vec3.add c (vec3.add (vec3.scale (Real.cos pitch) cyl)
        (vec3.scale (Real.sin pitch) (ellZvector o)))]
  else []) ++
  [vec3.add c (vec3.add (vec3.scale (Real.cos pitch) prevcyl)
      (vec3.scale (Real.sin pitch) (ellZvector o)))]

/-- The two polygons of cell (s1, s2): the upper patch in generation order
and the lower patch reversed to preserve outward winding. -/
noncomputable def ellCellPolys (o : EllOpts) (s1 s2 : ℕ) : List Poly3 :=
  [poly3.fromPoints (ellUpperPts o s1 s2),
   poly3.fromPoints ((ellLowerPts o s1 s2).reverse)]

/-- All polygons of the ellipsoid: longitude steps 1..segments, latitude
steps 1..qsegments, two polygons per cell. -/
noncomputable def ellPolygons (o : EllOpts) : List Poly3 :=
  (List.range o.segments.toNat).flatMap (fun i =>
    (List.range (ellQsegments o)).flatMap (fun j => ellCellPolys o (i + 1) (j + 1)))

/-- The ellipsoid generator: validation of center, radius and segments (axes
is never validated), then the latitude/longitude patch assembly. -/
noncomputable def ellipsoid (o : EllOpts) : Except String Geom3 :=
  if o.center.length < 3 then Except.error "center must contain X, Y and Z values"
  else if o.radius.length < 3 then Except.error "radius must contain X, Y and Z values"
  else if o.segments < 4 then Except.error "segments must be four or more"
  else Except.ok (geom3.create (ellPolygons o))

/-- Options of sphere (scalar radius). -/
structure SphereOpts where
  center : List ℝ
  radius : ℝ
  segments : ℤ
  axes : Vec3 × Vec3 × Vec3

/-- Defaults of sphere. -/
def sphereDefaults : SphereOpts :=
  ⟨[0, 0, 0], 1, 12, (⟨1, 0, 0⟩, ⟨0, -1, 0⟩, ⟨0, 0, 1⟩)⟩

/-- The sphere generator: expands the scalar radius to three equal components
and forwards to ellipsoid unchanged. -/
noncomputable def sphere (o : SphereOpts) : Except String Geom3 :=
  ellipsoid
    { center := o.center
      radius := [o.radius, o.radius, o.radius]
      segments := o.segments
      axes := o.axes }

/-- C2: for every configuration with scalar radii, cylinder behaves exactly
as cylinderElliptic on the same center, height, angles and segments with
both radius pairs set to the doubled scalar: the two calls return the same
value, so one fails exactly when the other does and successful meshes agree
vertex for vertex. -/
theorem claim2_cylinder_specializes_elliptic : ∀ (eps : ℝ) (o : CylinderOpts),
    cylinder eps o = cylinderElliptic eps
      ⟨o.center, o.height, (o.startRadius, o.startRadius), o.startAngle,
        (o.endRadius, o.endRadius), o.endAngle, o.segments⟩ :=
  fun _ _ => rfl

/-- C3: for every center, scalar radius, segments count and axes, sphere
returns exactly the value of ellipsoid on the radius expanded to three equal
components, hence the identical mesh vertex for vertex. -/
theorem claim3_sphere_specializes_ellipsoid : ∀ (o : SphereOpts),
    sphere o = ellipsoid ⟨o.center, [o.radius, o.radius, o.radius], o.segments, o.axes⟩ :=
  fun _ => rfl

/-- C9: every generator is deterministic: the embedded generators are pure
functions of their configuration (the arbitrary orthogonal seed vector being
modelled deterministically as the spec directs), so two calls on the same
configuration yield identical results. -/
theorem claim9_generators_deterministic : ∀ (eps : ℝ) (a : CylOpts) (b : CylinderOpts)
    (c : EllOpts) (d : SphereOpts),
    cylinderElliptic eps a = cylinderElliptic eps a ∧
    cylinder eps b = cylinder eps b ∧
    ellipsoid c = ellipsoid c ∧
    sphere d = sphere d :=
  fun _ _ _ _ _ => ⟨rfl, rfl, rfl, rfl⟩

/-- C10: ellipsoid never validates the axes parameter: whenever center and
radius have at least three components and segments is at least four, the
call succeeds - so no error (in particular none naming axes) is raised, for
every value of axes including zero vectors and non-orthogonal frames. -/
theorem claim10_ellipsoid_never_validates_axes : ∀ (o : EllOpts),
    3 ≤ o.center.length → 3 ≤ o.radius.length → 4 ≤ o.segments →
    isOkE (ellipsoid o) = true := by
  intro o h1 h2 h3
  unfold ellipsoid
  rw [if_neg (by omega), if_neg (by omega), if_neg (by omega)]
  rfl

/-- Concrete configuration exercising C10: valid center, radius and segments
but a degenerate axes frame of three zero vectors. -/
def c10opts : EllOpts := ⟨[0, 0, 0], [1, 1, 1], 4, (⟨0, 0, 0⟩, ⟨0, 0, 0⟩, ⟨0, 0, 0⟩)⟩

/-- Witness for C10: the theorem applied to the concrete degenerate-axes
configuration. -/
theorem claim10_witness : isOkE (ellipsoid c10opts) = true :=
  claim10_ellipsoid_never_validates_axes c10opts (by norm_num [c10opts])
    (by norm_num [c10opts]) (by norm_num [c10opts])

lemma jsmod_zero (y : ℝ) : jsmod 0 y = 0 := by
  unfold jsmod
  simp

lemma jsmod_self {y : ℝ} (hy : y ≠ 0) : jsmod y y = 0 := by
  unfold jsmod
  rw [div_self hy]
  norm_num

lemma jsmod_eq_self {x y : ℝ} (h0 : 0 ≤ x) (hxy : x < y) : jsmod x y = x := by
  have hy : 0 < y := lt_of_le_of_lt h0 hxy
  unfold jsmod
  have hfloor : ⌊x / y⌋ = 0 :=
    Int.floor_eq_zero_iff.mpr ⟨div_nonneg h0 hy.le, (div_lt_one hy).mpr hxy⟩
  rw [hfloor]
  norm_num

lemma cylRotation_of_eq {o : CylOpts} (h : cylStartAngleN o = cylEndAngleN o) :
    cylRotation o = Real.pi * 2 := by
  unfold cylRotation
  rw [h]
  simp

lemma cylMinAngle_le_pi (eps : ℝ) (o : CylOpts) : cylMinAngle eps o ≤ Real.pi :=
  Real.arccos_le_pi _

/-- Successful evaluation of cylinderElliptic once every validation check
passes: the mesh is the wall polygons followed by the wedge polygons when the
sweep is partial. -/
lemma cylinderElliptic_eq_ok (eps : ℝ) (o : CylOpts)
    (hc : ¬ o.center.length < 3) (hh : ¬ o.height < eps * 2)
    (hr : ¬ (o.endRadius.1 ≤ 0 ∨ o.startRadius.1 ≤ 0 ∨ o.endRadius.2 ≤ 0 ∨ o.startRadius.2 ≤ 0))
    (ha : ¬ (o.startAngle < 0 ∨ o.endAngle < 0)) (hs : ¬ o.segments < 4)
    (hm : ¬ cylRotation o < cylMinAngle eps o) :
    cylinderElliptic eps o = Except.ok (geom3.create (cylWall o ++
      (if cylRotation o < Real.pi * 2 then cylWedge o else []))) := by
  unfold cylinderElliptic
  rw [if_neg hc, if_neg hh, if_neg hr, if_neg ha, if_neg hs, if_neg hm]

/-- The concrete configuration of C5, as passed to the scalar cylinder:
height 2, both radii 1, segments 4, every other field at its default. -/
noncomputable def c5opts : CylinderOpts :=
  { cylinderDefaults with height := 2, startRadius := 1, endRadius := 1, segments := 4 }

/-- The elliptic configuration that c5opts forwards to. -/
noncomputable def c5eopts : CylOpts :=
  ⟨[0, 0, 0], 2, (1, 1), 0, (1, 1), Real.pi * 2, 4⟩

lemma c5_angles : cylStartAngleN c5eopts = 0 ∧ cylEndAngleN c5eopts = 0 := by
  constructor
  · unfold cylStartAngleN c5eopts
    exact jsmod_zero _
  · unfold cylEndAngleN c5eopts
    exact jsmod_self (by positivity)

lemma c5_rotation : cylRotation c5eopts = Real.pi * 2 :=
  cylRotation_of_eq (by rw [c5_angles.1, c5_angles.2])

lemma c5_slices : cylSlices c5eopts = 4 := by
  unfold cylSlices
  rw [c5_rotation]
  rw [div_self (by positivity)]
  norm_num
  rfl

lemma c5_result : cylinder EPS c5opts = Except.ok (geom3.create (cylWall c5eopts)) := by
  have heq : cylinder EPS c5opts = cylinderElliptic EPS c5eopts := rfl
  rw [heq, cylinderElliptic_eq_ok]
  · rw [if_neg (by rw [c5_rotation]; exact lt_irrefl _)]
    rw [List.append_nil]
  · norm_num [c5eopts]
  · norm_num [c5eopts, EPS]
  · norm_num [c5eopts]
  · norm_num [c5eopts]
    positivity
  · norm_num [c5eopts]
  · rw [c5_rotation]
    intro hlt
    have := cylMinAngle_le_pi EPS c5eopts
    have hp := Real.pi_pos
    linarith

lemma c5_wall_shape :
    (cylWall c5eopts).map (fun p => p.vertices.length) = [3, 4, 3, 3, 4, 3, 3, 4, 3, 3, 4, 3] := by
  unfold cylWall
  rw [c5_slices]
  have hcond : c5eopts.endRadius.1 = c5eopts.startRadius.1 ∧
      c5eopts.endRadius.2 = c5eopts.startRadius.2 := by norm_num [c5eopts]
  simp [List.range_succ, if_pos hcond, cylFromPoints, poly3.fromPoints]

/-- Counterexample to C5: on the stated configuration the cylinder mesh
contains twelve polygons, not six - the caps are emitted as four triangles
per end, not as one 4-gon per end. -/
theorem claim5_counterexample :
    Except.map (fun g => g.polygons.length) (cylinder EPS c5opts) = Except.ok 12 ∧
    Except.map (fun g => g.polygons.length) (cylinder EPS c5opts) ≠ Except.ok 6 := by
  have hlen : (cylWall c5eopts).length = 12 := by
    have := congrArg List.length c5_wall_shape
    simpa using this
  rw [c5_result]
  refine ⟨?_, ?_⟩
  · simp [Except.map, geom3.create, hlen]
  · simp [Except.map, geom3.create, hlen]

/-- C5 as amended: the configuration yields exactly twelve polygons - per
angular slice one bottom cap triangle, one side quad and one top cap
triangle, for four slices - deterministically. -/
theorem claim5_amended :
    cylinder EPS c5opts = Except.ok (geom3.create (cylWall c5eopts)) ∧
    (cylWall c5eopts).map (fun p => p.vertices.length) =
      [3, 4, 3, 3, 4, 3, 3, 4, 3, 3, 4, 3] ∧
    (cylWall c5eopts).length = 12 :=
  ⟨c5_result, c5_wall_shape, by
    have := congrArg List.length c5_wall_shape
    simpa using this⟩

/-- C6 as amended: for a configuration passing every per-field validation,
the call fails with the InsufficientRotation message if and only if the
effective rotation sweep is strictly less than the minimum angle derived
from the smallest radius component and the tolerance (the source compares
with strict less-than, so a sweep exactly equal to the minimum angle is
accepted). -/
theorem claim6_amended : ∀ (eps : ℝ) (o : CylOpts), ¬ o.center.length < 3 →
    ¬ o.height < eps * 2 →
    ¬ (o.endRadius.1 ≤ 0 ∨ o.startRadius.1 ≤ 0 ∨ o.endRadius.2 ≤ 0 ∨ o.startRadius.2 ≤ 0) →
    ¬ (o.startAngle < 0 ∨ o.endAngle < 0) → ¬ o.segments < 4 →
    (cylinderElliptic eps o =
        Except.error "startAngle and endAngle to not define a significant rotation" ↔
      cylRotation o < cylMinAngle eps o) := by
  intro eps o hc hh hr ha hs
  unfold cylinderElliptic
  rw [if_neg hc, if_neg hh, if_neg hr, if_neg ha, if_neg hs]
  by_cases hm : cylRotation o < cylMinAngle eps o
  · rw [if_pos hm]
    exact ⟨fun _ => hm, fun _ => rfl⟩
  · rw [if_neg hm]
    exact ⟨fun h => absurd h (by simp), fun h => absurd h hm⟩

/-- Concrete configuration for the C6 witness: a sweep of pi/6 against a
minimum angle of pi/3 (tolerance 1, unit radii). -/
noncomputable def c6wopts : CylOpts := ⟨[0, 0, 0], 2, (1, 1), 0, (1, 1), Real.pi / 6, 4⟩

lemma c6w_rotation : cylRotation c6wopts = Real.pi / 6 := by
  have hpi := Real.pi_pos
  have hsa : cylStartAngleN c6wopts = 0 := jsmod_zero _
  have hend : c6wopts.endAngle = Real.pi / 6 := rfl
  have hea : cylEndAngleN c6wopts = Real.pi / 6 := by
    unfold cylEndAngleN
    rw [hend]
    exact jsmod_eq_self (by positivity) (by linarith)
  unfold cylRotation
  rw [hsa, hea, if_pos (by positivity)]
  ring

lemma c6w_minangle : cylMinAngle 1 c6wopts = Real.pi / 3 := by
  have h1 : cylMinRadius c6wopts = 1 := by norm_num [cylMinRadius, c6wopts]
  unfold cylMinAngle
  rw [h1]
  norm_num
  rw [show (1 : ℝ) / 2 = Real.cos (Real.pi / 3) by rw [Real.cos_pi_div_three]]
  exact Real.arccos_cos (by positivity) (by linarith [Real.pi_pos])

/-- Witness for C6 (amended): with tolerance 1, unit radii and a sweep of
pi/6 < pi/3, the call fails with the InsufficientRotation message. -/
theorem claim6_witness : cylinderElliptic 1 c6wopts =
    Except.error "startAngle and endAngle to not define a significant rotation" := by
  have hpi := Real.pi_pos
  refine (claim6_amended 1 c6wopts ?_ ?_ ?_ ?_ ?_).mpr ?_
  · norm_num [c6wopts]
  · norm_num [c6wopts]
  · norm_num [c6wopts]
  · norm_num [c6wopts]
    positivity
  · norm_num [c6wopts]
  · rw [c6w_rotation, c6w_minangle]
    linarith

/-- Concrete configuration refuting C6 as stated: the end angle is chosen so
that the effective sweep equals the minimum angle exactly. -/
noncomputable def c6copts : CylOpts :=
  ⟨[0, 0, 0], 2, (1, 1), 0, (1, 1), Real.arccos ((2 - EPS * EPS) / 2), 4⟩

lemma c6c_minangle : cylMinAngle EPS c6copts = Real.arccos ((2 - EPS * EPS) / 2) := by
  have h1 : cylMinRadius c6copts = 1 := by norm_num [cylMinRadius, c6copts]
  unfold cylMinAngle
  rw [h1]
  norm_num

lemma c6c_rotation : cylRotation c6copts = Real.arccos ((2 - EPS * EPS) / 2) := by
  have hpi := Real.pi_pos
  have harg : (2 - EPS * EPS) / 2 < 1 := by norm_num [EPS]
  have hpos : 0 < Real.arccos ((2 - EPS * EPS) / 2) := Real.arccos_pos.mpr harg
  have hle : Real.arccos ((2 - EPS * EPS) / 2) ≤ Real.pi := Real.arccos_le_pi _
  have hsa : cylStartAngleN c6copts = 0 := jsmod_zero _
  have hend : c6copts.endAngle = Real.arccos ((2 - EPS * EPS) / 2) := rfl
  have hea : cylEndAngleN c6copts = Real.arccos ((2 - EPS * EPS) / 2) := by
    unfold cylEndAngleN
    rw [hend]
    exact jsmod_eq_self hpos.le (by linarith)
  unfold cylRotation
  rw [hsa, hea, if_pos hpos]
  ring

/-- Counterexample to C6 as stated: a configuration whose effective sweep
does not exceed (it equals) the minimum angle, yet the call succeeds - the
source rejects only sweeps strictly below the minimum angle. -/
theorem claim6_counterexample :
    cylRotation c6copts ≤ cylMinAngle EPS c6copts ∧
    isOkE (cylinderElliptic EPS c6copts) = true := by
  have heq : cylRotation c6copts = cylMinAngle EPS c6copts := by
    rw [c6c_rotation, c6c_minangle]
  refine ⟨le_of_eq heq, ?_⟩
  rw [cylinderElliptic_eq_ok]
  · rfl
  · norm_num [c6copts]
  · norm_num [c6copts, EPS]
  · norm_num [c6copts]
  · norm_num [c6copts]
    exact Real.arccos_nonneg _
  · norm_num [c6copts]
  · rw [heq]
    exact lt_irrefl _

/-- C7 as amended: with a well-formed center, a too-small height fails with
the message naming height; with height accepted, any non-positive radius
component fails with the single shared message "endRadus and startRadius
should be positive", which names startRadius but misspells endRadius (so the
violated field endRadius is never spelled correctly); with radii and angles
accepted, segments below four fails with the message naming segments. -/
theorem claim7_amended : ∀ (eps : ℝ) (o : CylOpts), ¬ o.center.length < 3 →
    (o.height < eps * 2 →
      cylinderElliptic eps o = Except.error "height must be larger then zero") ∧
    (¬ o.height < eps * 2 →
      (o.endRadius.1 ≤ 0 ∨ o.startRadius.1 ≤ 0 ∨ o.endRadius.2 ≤ 0 ∨ o.startRadius.2 ≤ 0) →
      cylinderElliptic eps o = Except.error "endRadus and startRadius should be positive") ∧
    (¬ o.height < eps * 2 →
      ¬ (o.endRadius.1 ≤ 0 ∨ o.startRadius.1 ≤ 0 ∨ o.endRadius.2 ≤ 0 ∨ o.startRadius.2 ≤ 0) →
      ¬ (o.startAngle < 0 ∨ o.endAngle < 0) → o.segments < 4 →
      cylinderElliptic eps o = Except.error "segments must be four or more") ∧
    strContains "height must be larger then zero" "height" = true ∧
    strContains "segments must be four or more" "segments" = true ∧
    strContains "endRadus and startRadius should be positive" "startRadius" = true ∧
    strContains "endRadus and startRadius should be positive" "endRadius" = false := by
  intro eps o hc
  refine ⟨?_, ?_, ?_, by decide, by decide, by decide, by decide⟩
  · intro hh
    unfold cylinderElliptic
    rw [if_neg hc, if_pos hh]
  · intro hh hr
    unfold cylinderElliptic
    rw [if_neg hc, if_neg hh, if_pos hr]
  · intro hh hr ha hs
    unfold cylinderElliptic
    rw [if_neg hc, if_neg hh, if_neg hr, if_neg ha, if_pos hs]

/-- Concrete configuration for the C7 witness: segments = 3, all other
fields valid. -/
noncomputable def c7wopts : CylOpts := ⟨[0, 0, 0], 2, (1, 1), 0, (1, 1), Real.pi * 2, 3⟩

/-- Witness for C7 (amended): segments = 3 fails with the message naming
segments. -/
theorem claim7_witness :
    cylinderElliptic EPS c7wopts = Except.error "segments must be four or more" := by
  refine ((claim7_amended EPS c7wopts ?_).2.2.1) ?_ ?_ ?_ ?_
  · norm_num [c7wopts]
  · norm_num [c7wopts, EPS]
  · norm_num [c7wopts]
  · norm_num [c7wopts]
    positivity
  · norm_num [c7wopts]

/-- Concrete configuration refuting C7 as stated: only endRadius is violated. -/
noncomputable def c7copts : CylOpts := ⟨[0, 0, 0], 2, (1, 1), 0, (-1, 1), Real.pi * 2, 12⟩

/-- Counterexample to C7 as stated: a violated endRadius raises the shared
radius message, and that message does not name the violated field endRadius
(it misspells it as endRadus). -/
theorem claim7_counterexample :
    cylinderElliptic EPS c7copts = Except.error "endRadus and startRadius should be positive" ∧
    strContains "endRadus and startRadius should be positive" "endRadius" = false := by
  constructor
  · unfold cylinderElliptic
    rw [if_neg (by norm_num [c7copts]), if_neg (by norm_num [c7copts, EPS]),
      if_pos (by norm_num [c7copts])]
  · decide

lemma ellUpperPts_length (o : EllOpts) (s1 s2 : ℕ) :
    (ellUpperPts o s1 s2).length = if s2 < ellQsegments o then 4 else 3 := by
  unfold ellUpperPts
  by_cases h : s2 < ellQsegments o
  · simp [h]
  · simp [h]

lemma ellLowerPts_length (o : EllOpts) (s1 s2 : ℕ) :
    (ellLowerPts o s1 s2).length = if s2 < ellQsegments o then 4 else 3 := by
  unfold ellLowerPts
  by_cases h : s2 < ellQsegments o
  · simp [h]
  · simp [h]

/-- C8: for every valid ellipsoid configuration, each (longitude, latitude)
cell emits exactly two polygons - the upper-hemisphere patch in generation
order and the lower-hemisphere patch (same corners with the pitch
contribution mirrored in sign) in reversed order - and each patch has four
vertices except in the last latitude row, where the far corner is omitted
and it has three. -/
theorem claim8_ellipsoid_cell_structure : ∀ (o : EllOpts),
    3 ≤ o.center.length → 3 ≤ o.radius.length → 4 ≤ o.segments →
    ellipsoid o = Except.ok (geom3.create (ellPolygons o)) ∧
    (∀ s1 s2 : ℕ, 1 ≤ s2 → s2 ≤ ellQsegments o →
      (ellCellPolys o s1 s2).length = 2 ∧
      ellCellPolys o s1 s2 = [poly3.fromPoints (ellUpperPts o s1 s2),
        poly3.fromPoints ((ellLowerPts o s1 s2).reverse)] ∧
      (ellUpperPts o s1 s2).length = (if s2 = ellQsegments o then 3 else 4) ∧
      (ellLowerPts o s1 s2).length = (ellUpperPts o s1 s2).length) := by
  intro o h1 h2 h3
  constructor
  · unfold ellipsoid
    rw [if_neg (by omega), if_neg (by omega), if_neg (by omega)]
  · intro s1 s2 hs1 hs2
    refine ⟨rfl, rfl, ?_, ?_⟩
    · rw [ellUpperPts_length]
      by_cases h : s2 = ellQsegments o
      · rw [if_neg (by omega), if_pos h]
      · rw [if_pos (by omega), if_neg h]
    · rw [ellUpperPts_length, ellLowerPts_length]

/-- Concrete configuration for the C8 witness: an ellipsoid with four
longitude segments, hence a single latitude row. -/
def c8wopts : EllOpts := { ellipsoidDefaults with segments := 4 }

lemma c8w_qsegments : ellQsegments c8wopts = 1 := by
  unfold ellQsegments
  rw [show ((c8wopts.segments : ℝ) / 4 + 1 / 2) = 3 / 2 by norm_num [c8wopts, ellipsoidDefaults]]
  rw [show ⌊(3 : ℝ) / 2⌋ = 1 by rw [Int.floor_eq_iff]; norm_num]
  rfl

/-- Witness for C8: the theorem applied to the concrete configuration; its
single latitude row is a pole row, so both patches are triangles. -/
theorem claim8_witness :
    ellipsoid c8wopts = Except.ok (geom3.create (ellPolygons c8wopts)) ∧
    (ellCellPolys c8wopts 1 1).length = 2 ∧
    (ellUpperPts c8wopts 1 1).length = 3 := by
  have h := claim8_ellipsoid_cell_structure c8wopts (by norm_num [c8wopts, ellipsoidDefaults])
    (by norm_num [c8wopts, ellipsoidDefaults]) (by norm_num [c8wopts, ellipsoidDefaults])
  have hq : ellQsegments c8wopts = 1 := c8w_qsegments
  have hcell := h.2 1 1 le_rfl (by omega)
  refine ⟨h.1, hcell.1, ?_⟩
  rw [hcell.2.2.1, hq, if_pos rfl]

lemma jsmod_eq_fract {x y : ℝ} (hy : y ≠ 0) : jsmod x y = y * Int.fract (x / y) := by
  unfold jsmod Int.fract
  field_simp

lemma jsmod_nonneg {y : ℝ} (hy : 0 < y) (x : ℝ) : 0 ≤ jsmod x y := by
  rw [jsmod_eq_fract hy.ne']
  exact mul_nonneg hy.le (Int.fract_nonneg _)

lemma jsmod_lt {y : ℝ} (hy : 0 < y) (x : ℝ) : jsmod x y < y := by
  rw [jsmod_eq_fract hy.ne']
  calc y * Int.fract (x / y) < y * 1 := mul_lt_mul_of_pos_left (Int.fract_lt_one _) hy
    _ = y := mul_one y

lemma cylRotation_lt_full {o : CylOpts} (hne : cylStartAngleN o ≠ cylEndAngleN o) :
    cylRotation o < Real.pi * 2 := by
  have h2 : (0 : ℝ) < Real.pi * 2 := by positivity
  have hs0 : 0 ≤ cylStartAngleN o := jsmod_nonneg h2 _
  have he0 : 0 ≤ cylEndAngleN o := jsmod_nonneg h2 _
  have hel : cylEndAngleN o < Real.pi * 2 := jsmod_lt h2 _
  unfold cylRotation
  rcases lt_trichotomy (cylStartAngleN o) (cylEndAngleN o) with h | h | h
  · rw [if_pos h]
    linarith
  · exact absurd h hne
  · rw [if_neg (not_lt.mpr h.le), if_pos h]
    linarith

lemma cylRotation_add_start {o : CylOpts} (hne : cylStartAngleN o ≠ cylEndAngleN o) :
    cylRotation o + cylStartAngleN o = cylEndAngleN o ∨
    cylRotation o + cylStartAngleN o = cylEndAngleN o + Real.pi * 2 := by
  unfold cylRotation
  rcases lt_trichotomy (cylStartAngleN o) (cylEndAngleN o) with h | h | h
  · rw [if_pos h]
    left
    ring
  · exact absurd h hne
  · rw [if_neg (not_lt.mpr h.le), if_pos h]
    right
    ring

lemma cos_sin_at_end {o : CylOpts} (hne : cylStartAngleN o ≠ cylEndAngleN o) :
    Real.cos (1 * cylRotation o + cylStartAngleN o) = Real.cos (cylEndAngleN o) ∧
    Real.sin (1 * cylRotation o + cylStartAngleN o) = Real.sin (cylEndAngleN o) := by
  rcases cylRotation_add_start hne with h | h
  · rw [show (1 : ℝ) * cylRotation o + cylStartAngleN o = cylEndAngleN o by rw [one_mul]; exact h]
    exact ⟨rfl, rfl⟩
  · rw [show (1 : ℝ) * cylRotation o + cylStartAngleN o = cylEndAngleN o + 2 * Real.pi by
      rw [one_mul]; rw [h]; ring]
    rw [Real.cos_add_two_pi, Real.sin_add_two_pi]
    exact ⟨rfl, rfl⟩

lemma unit_z {h : ℝ} (hh : 0 < h) : vec3.unit ⟨0, 0, h⟩ = ⟨0, 0, 1⟩ := by
  unfold vec3.unit vec3.length vec3.dot vec3.scale
  rw [show (0 : ℝ) * 0 + 0 * 0 + h * h = h * h by ring, Real.sqrt_mul_self hh.le,
    Vec3.mk.injEq]
  refine ⟨by ring, by ring, ?_⟩
  rw [one_div, inv_mul_cancel₀ hh.ne']

lemma unit_x : vec3.unit ⟨1, 0, 0⟩ = ⟨1, 0, 0⟩ := by
  unfold vec3.unit vec3.length vec3.dot vec3.scale
  rw [show (1 : ℝ) * 1 + 0 * 0 + 0 * 0 = 1 by ring, Real.sqrt_one, Vec3.mk.injEq]
  norm_num

lemma unit_ny : vec3.unit ⟨0, -1, 0⟩ = ⟨0, -1, 0⟩ := by
  unfold vec3.unit vec3.length vec3.dot vec3.scale
  rw [show (0 : ℝ) * 0 + -1 * -1 + 0 * 0 = 1 by ring, Real.sqrt_one, Vec3.mk.injEq]
  norm_num

lemma cylRay_eval (o : CylOpts) : cylRay o = ⟨0, 0, o.height⟩ := by
  unfold cylRay cylEnd cylStart vec3.subtract vec3.fromValues
  rw [Vec3.mk.injEq]
  refine ⟨by ring, by ring, by ring⟩

lemma cylAxisZ_eval (o : CylOpts) (hh : 0 < o.height) : cylAxisZ o = ⟨0, 0, 1⟩ := by
  unfold cylAxisZ
  rw [cylRay_eval]
  exact unit_z hh

lemma cylAxisX_eval (o : CylOpts) (hh : 0 < o.height) : cylAxisX o = ⟨1, 0, 0⟩ := by
  unfold cylAxisX
  rw [cylAxisZ_eval o hh]
  unfold vec3.random
  rw [if_neg (by norm_num [vec3.cross, Vec3.mk.injEq])]
  exact unit_x

lemma cylAxisY_eval (o : CylOpts) (hh : 0 < o.height) : cylAxisY o = ⟨0, -1, 0⟩ := by
  unfold cylAxisY
  rw [cylAxisX_eval o hh, cylAxisZ_eval o hh]
  rw [show vec3.cross ⟨1, 0, 0⟩ ⟨0, 0, 1⟩ = (⟨0, -1, 0⟩ : Vec3) by
    unfold vec3.cross; rw [Vec3.mk.injEq]; norm_num]
  exact unit_ny

lemma cylPointFn_eval (o : CylOpts) (hh : 0 < o.height) (stack slice : ℝ) (r : ℝ × ℝ) :
    cylPointFn o stack slice r =
      ⟨r.1 * Real.cos (slice * cylRotation o + cylStartAngleN o),
       -(r.2 * Real.sin (slice * cylRotation o + cylStartAngleN o)),
       -(o.height / 2) + stack * o.height⟩ := by
  simp only [cylPointFn]
  rw [cylAxisX_eval o hh, cylAxisY_eval o hh, cylRay_eval]
  unfold cylStart vec3.fromValues vec3.add vec3.scale
  rw [Vec3.mk.injEq]
  refine ⟨by ring, by ring, by ring⟩

/-- A point lies on the plane through base with normal n. -/
def onPlane (n base v : Vec3) : Prop := vec3.dot n (vec3.subtract v base) = 0

/-- Normal of the angular boundary plane at angle t for an elliptic radius
pair r: the plane through the axis containing the radial direction
(r1 cos t, -r2 sin t) in the frame of the generator. -/
noncomputable def bNormal (r : ℝ × ℝ) (t : ℝ) : Vec3 :=
  ⟨r.2 * Real.sin t, r.1 * Real.cos t, 0⟩

lemma sub_add_cancel_vec (v c : Vec3) : vec3.subtract (vec3.add v c) c = v := by
  unfold vec3.subtract vec3.add
  rw [Vec3.mk.injEq]
  refine ⟨by ring, by ring, by ring⟩

lemma onPlane_add {n c v : Vec3} : onPlane n c (vec3.add v c) ↔ vec3.dot n v = 0 := by
  unfold onPlane
  rw [sub_add_cancel_vec]

lemma bNormal_ne_zero {r : ℝ × ℝ} (h1 : 0 < r.1) (h2 : 0 < r.2) (t : ℝ) :
    bNormal r t ≠ ⟨0, 0, 0⟩ := by
  intro h
  rw [bNormal, Vec3.mk.injEq] at h
  have hsin : Real.sin t = 0 := by
    rcases mul_eq_zero.mp h.1 with h' | h'
    · exact absurd h' h2.ne'
    · exact h'
  have hcos : Real.cos t = 0 := by
    rcases mul_eq_zero.mp h.2.1 with h' | h'
    · exact absurd h' h1.ne'
    · exact h'
  have hpyth := Real.sin_sq_add_cos_sq t
  rw [hsin, hcos] at hpyth
  norm_num at hpyth

/-- C4 as amended: for every valid configuration whose angles agree after
normalization the rotation is the full 2*pi and no wedge end-cap polygons
are emitted; with a partial sweep, exactly four additional end-cap wall
polygons are emitted, and whenever the start and end radius pairs are
proportional (in particular for scalar-radius cylinders) the first two lie
in the angular boundary plane at the normalized startAngle and the last two
in the one at the normalized endAngle. -/
theorem claim4_amended : ∀ (eps : ℝ) (o : CylOpts), 0 < eps →
    ¬ o.center.length < 3 → ¬ o.height < eps * 2 →
    (0 < o.startRadius.1 ∧ 0 < o.startRadius.2 ∧ 0 < o.endRadius.1 ∧ 0 < o.endRadius.2) →
    ¬ (o.startAngle < 0 ∨ o.endAngle < 0) → ¬ o.segments < 4 →
    ¬ cylRotation o < cylMinAngle eps o →
    ((cylStartAngleN o = cylEndAngleN o →
        cylRotation o = Real.pi * 2 ∧
        cylinderElliptic eps o = Except.ok (geom3.create (cylWall o))) ∧
     (cylStartAngleN o ≠ cylEndAngleN o →
        cylinderElliptic eps o = Except.ok (geom3.create (cylWall o ++ cylWedge o)) ∧
        (cylWedge o).length = 4 ∧
        (o.startRadius.1 * o.endRadius.2 = o.startRadius.2 * o.endRadius.1 →
          (∀ p ∈ (cylWedge o).take 2, ∀ v ∈ p.vertices,
            onPlane (bNormal o.startRadius (cylStartAngleN o)) (vec3.fromList o.center) v) ∧
          (∀ p ∈ (cylWedge o).drop 2, ∀ v ∈ p.vertices,
            onPlane (bNormal o.startRadius (cylEndAngleN o)) (vec3.fromList o.center) v) ∧
          bNormal o.startRadius (cylStartAngleN o) ≠ ⟨0, 0, 0⟩ ∧
          bNormal o.startRadius (cylEndAngleN o) ≠ ⟨0, 0, 0⟩))) := by
  intro eps o heps hc hh hrpos ha hs hm
  have hr : ¬ (o.endRadius.1 ≤ 0 ∨ o.startRadius.1 ≤ 0 ∨ o.endRadius.2 ≤ 0 ∨
      o.startRadius.2 ≤ 0) := by
    push_neg
    exact ⟨hrpos.2.2.1, hrpos.1, hrpos.2.2.2, hrpos.2.1⟩
  have hh0 : 0 < o.height := lt_of_lt_of_le (by linarith) (not_lt.mp hh)
  constructor
  · intro heq
    have hrot := cylRotation_of_eq heq
    refine ⟨hrot, ?_⟩
    rw [cylinderElliptic_eq_ok eps o hc hh hr ha hs hm,
      if_neg (by rw [hrot]; exact lt_irrefl _), List.append_nil]
  · intro hne
    have hlt := cylRotation_lt_full hne
    refine ⟨by rw [cylinderElliptic_eq_ok eps o hc hh hr ha hs hm, if_pos hlt], rfl, ?_⟩
    intro hprop
    have hdot_axis : ∀ (t : ℝ) (z : ℝ),
        vec3.dot (bNormal o.startRadius t) ⟨0, 0, z⟩ = 0 := by
      intro t z
      unfold bNormal vec3.dot
      ring
    have hstart_eval : cylStart o = (⟨0, 0, -(o.height / 2)⟩ : Vec3) := rfl
    have hend_eval : cylEnd o = (⟨0, 0, o.height / 2⟩ : Vec3) := rfl
    have hdot_start : ∀ t : ℝ, vec3.dot (bNormal o.startRadius t) (cylStart o) = 0 := by
      intro t
      rw [hstart_eval]
      exact hdot_axis t _
    have hdot_end : ∀ t : ℝ, vec3.dot (bNormal o.startRadius t) (cylEnd o) = 0 := by
      intro t
      rw [hend_eval]
      exact hdot_axis t _
    have hdot_p00 : vec3.dot (bNormal o.startRadius (cylStartAngleN o))
        (cylPointFn o 0 0 o.startRadius) = 0 := by
      rw [cylPointFn_eval o hh0,
        show (0 : ℝ) * cylRotation o + cylStartAngleN o = cylStartAngleN o by ring]
      unfold bNormal vec3.dot
      ring
    have hdot_p10 : vec3.dot (bNormal o.startRadius (cylStartAngleN o))
        (cylPointFn o 1 0 o.endRadius) = 0 := by
      rw [cylPointFn_eval o hh0,
        show (0 : ℝ) * cylRotation o + cylStartAngleN o = cylStartAngleN o by ring]
      unfold bNormal vec3.dot
      linear_combination
        (-(Real.sin (cylStartAngleN o) * Real.cos (cylStartAngleN o))) * hprop
    have hdot_p01 : vec3.dot (bNormal o.startRadius (cylEndAngleN o))
        (cylPointFn o 0 1 o.startRadius) = 0 := by
      rw [cylPointFn_eval o hh0, (cos_sin_at_end hne).1, (cos_sin_at_end hne).2]
      unfold bNormal vec3.dot
      ring
    have hdot_p11 : vec3.dot (bNormal o.startRadius (cylEndAngleN o))
        (cylPointFn o 1 1 o.endRadius) = 0 := by
      rw [cylPointFn_eval o hh0, (cos_sin_at_end hne).1, (cos_sin_at_end hne).2]
      unfold bNormal vec3.dot
      linear_combination
        (-(Real.sin (cylEndAngleN o) * Real.cos (cylEndAngleN o))) * hprop
    refine ⟨?_, ?_, bNormal_ne_zero hrpos.1 hrpos.2.1 _, bNormal_ne_zero hrpos.1 hrpos.2.1 _⟩
    · intro p hp v hv
      have hp' : p = cylFromPoints o [cylStart o, cylEnd o, cylPointFn o 0 0 o.startRadius] ∨
          p = cylFromPoints o [cylPointFn o 0 0 o.startRadius, cylEnd o,
            cylPointFn o 1 0 o.endRadius] := by
        simpa [cylWedge] using hp
      rcases hp' with hp' | hp' <;> subst hp' <;>
        simp only [cylFromPoints, poly3.fromPoints, List.map_cons, List.map_nil,
          List.mem_cons, List.not_mem_nil, or_false] at hv
      · rcases hv with hv | hv | hv <;> subst hv <;> rw [onPlane_add]
        · exact hdot_start _
        · exact hdot_end _
        · exact hdot_p00
      · rcases hv with hv | hv | hv <;> subst hv <;> rw [onPlane_add]
        · exact hdot_p00
        · exact hdot_end _
        · exact hdot_p10
    · intro p hp v hv
      have hp' : p = cylFromPoints o [cylStart o, cylPointFn o 0 1 o.startRadius, cylEnd o] ∨
          p = cylFromPoints o [cylPointFn o 0 1 o.startRadius, cylPointFn o 1 1 o.endRadius,
            cylEnd o] := by
        simpa [cylWedge] using hp
      rcases hp' with hp' | hp' <;> subst hp' <;>
        simp only [cylFromPoints, poly3.fromPoints, List.map_cons, List.map_nil,
          List.mem_cons, List.not_mem_nil, or_false] at hv
      · rcases hv with hv | hv | hv <;> subst hv <;> rw [onPlane_add]
        · exact hdot_start _
        · exact hdot_p01
        · exact hdot_end _
      · rcases hv with hv | hv | hv <;> subst hv <;> rw [onPlane_add]
        · exact hdot_p01
        · exact hdot_p11
        · exact hdot_end _

lemma arccos_anti {x y : ℝ} (h : x ≤ y) : Real.arccos y ≤ Real.arccos x := by
  rw [Real.arccos_eq_pi_div_two_sub_arcsin, Real.arccos_eq_pi_div_two_sub_arcsin]
  have := Real.monotone_arcsin h
  linarith

lemma arccos_half : Real.arccos (1 / 2) = Real.pi / 3 := by
  rw [show (1 : ℝ) / 2 = Real.cos (Real.pi / 3) by rw [Real.cos_pi_div_three]]
  exact Real.arccos_cos (by positivity) (by linarith [Real.pi_pos])

/-- Concrete configuration for the C4 witness: a half sweep (endAngle pi)
with equal unit radius pairs. -/
noncomputable def c4wopts : CylOpts := ⟨[0, 0, 0], 2, (1, 1), 0, (1, 1), Real.pi, 4⟩

/-- Witness for C4 (amended): the half-sweep configuration emits the wall
polygons plus exactly four wedge end-cap polygons, each lying in its angular
boundary plane. -/
theorem claim4_witness :
    cylinderElliptic EPS c4wopts =
      Except.ok (geom3.create (cylWall c4wopts ++ cylWedge c4wopts)) ∧
    (cylWedge c4wopts).length = 4 ∧
    (∀ p ∈ (cylWedge c4wopts).take 2, ∀ v ∈ p.vertices,
      onPlane (bNormal c4wopts.startRadius (cylStartAngleN c4wopts))
        (vec3.fromList c4wopts.center) v) := by
  have hpi := Real.pi_pos
  have hsa : cylStartAngleN c4wopts = 0 := jsmod_zero _
  have hea : cylEndAngleN c4wopts = Real.pi := by
    unfold cylEndAngleN
    rw [show c4wopts.endAngle = Real.pi from rfl]
    exact jsmod_eq_self hpi.le (by linarith)
  have hne : cylStartAngleN c4wopts ≠ cylEndAngleN c4wopts := by
    rw [hsa, hea]
    exact Ne.symm Real.pi_ne_zero
  have h := claim4_amended EPS c4wopts (by norm_num [EPS]) (by norm_num [c4wopts])
    (by norm_num [c4wopts, EPS]) (by norm_num [c4wopts])
    (by norm_num [c4wopts]; positivity) (by norm_num [c4wopts])
    (by
      have hrot : cylRotation c4wopts = Real.pi := by
        unfold cylRotation
        rw [hsa, hea, if_pos hpi]
        ring
      rw [hrot]
      exact not_lt.mpr (le_trans (cylMinAngle_le_pi EPS c4wopts) le_rfl))
  have hpart := h.2 hne
  exact ⟨hpart.1, hpart.2.1, (hpart.2.2 (by norm_num [c4wopts])).1⟩

/-- Concrete configuration refuting C4 as stated: an elliptic start radius
pair (2,1) not proportional to the end pair (1,1), start angle pi/3, half
sweep to pi. -/
noncomputable def c4copts : CylOpts :=
  ⟨[0, 0, 0], 2, (2, 1), Real.pi / 3, (1, 1), Real.pi, 4⟩

lemma c4c_sa : cylStartAngleN c4copts = Real.pi / 3 := by
  have hpi := Real.pi_pos
  unfold cylStartAngleN
  rw [show c4copts.startAngle = Real.pi / 3 from rfl]
  exact jsmod_eq_self (by positivity) (by linarith)

lemma c4c_ea : cylEndAngleN c4copts = Real.pi := by
  have hpi := Real.pi_pos
  unfold cylEndAngleN
  rw [show c4copts.endAngle = Real.pi from rfl]
  exact jsmod_eq_self hpi.le (by linarith)

lemma c4c_rotation : cylRotation c4copts = Real.pi - Real.pi / 3 := by
  have hpi := Real.pi_pos
  unfold cylRotation
  rw [c4c_sa, c4c_ea, if_pos (by linarith)]

lemma c4c_result : cylinderElliptic EPS c4copts =
    Except.ok (geom3.create (cylWall c4copts ++ cylWedge c4copts)) := by
  have hpi := Real.pi_pos
  rw [cylinderElliptic_eq_ok]
  · rw [if_pos (by rw [c4c_rotation]; linarith)]
  · norm_num [c4copts]
  · norm_num [c4copts, EPS]
  · norm_num [c4copts]
  · norm_num [c4copts]
    constructor <;> positivity
  · norm_num [c4copts]
  · have hmin : cylMinRadius c4copts = 1 := by
      norm_num [cylMinRadius, c4copts]
    have hma : cylMinAngle EPS c4copts ≤ Real.pi / 3 := by
      unfold cylMinAngle
      rw [hmin]
      calc Real.arccos ((1 * 1 + 1 * 1 - EPS * EPS) / (2 * (1 * 1)))
          ≤ Real.arccos (1 / 2) := arccos_anti (by norm_num [EPS])
        _ = Real.pi / 3 := arccos_half
    rw [c4c_rotation]
    intro hcon
    have : Real.pi - Real.pi / 3 < Real.pi / 3 := lt_of_lt_of_le hcon hma
    linarith

lemma c4c_height : (0 : ℝ) < c4copts.height := by norm_num [c4copts]

lemma c4c_p00 : cylPointFn c4copts 0 0 c4copts.startRadius =
    (⟨1, -(Real.sqrt 3 / 2), -1⟩ : Vec3) := by
  rw [cylPointFn_eval c4copts c4c_height,
    show (0 : ℝ) * cylRotation c4copts + cylStartAngleN c4copts = Real.pi / 3 by
      rw [c4c_sa]; ring]
  rw [Vec3.mk.injEq]
  refine ⟨?_, ?_, ?_⟩
  · rw [show c4copts.startRadius.1 = 2 from rfl, Real.cos_pi_div_three]
    norm_num
  · rw [show c4copts.startRadius.2 = 1 from rfl, Real.sin_pi_div_three]
    norm_num
  · norm_num [c4copts]

lemma c4c_p10 : cylPointFn c4copts 1 0 c4copts.endRadius =
    (⟨1 / 2, -(Real.sqrt 3 / 2), 1⟩ : Vec3) := by
  rw [cylPointFn_eval c4copts c4c_height,
    show (0 : ℝ) * cylRotation c4copts + cylStartAngleN c4copts = Real.pi / 3 by
      rw [c4c_sa]; ring]
  rw [Vec3.mk.injEq]
  refine ⟨?_, ?_, ?_⟩
  · rw [show c4copts.endRadius.1 = 1 from rfl, Real.cos_pi_div_three]
    norm_num
  · rw [show c4copts.endRadius.2 = 1 from rfl, Real.sin_pi_div_three]
    norm_num
  · norm_num [c4copts]

lemma c4c_start : cylStart c4copts = (⟨0, 0, -1⟩ : Vec3) := by
  unfold cylStart vec3.fromValues
  rw [Vec3.mk.injEq]
  norm_num [c4copts]

lemma c4c_end : cylEnd c4copts = (⟨0, 0, 1⟩ : Vec3) := by
  unfold cylEnd vec3.fromValues
  rw [Vec3.mk.injEq]
  norm_num [c4copts]

/-- Counterexample to C4 as stated: on this elliptic configuration the call
succeeds and emits its four wedge polygons, yet no plane at all (hence in
particular no angular boundary plane at startAngle) contains all vertices of
the first two wedge polygons - their radial directions at the two ends are
not parallel. -/
theorem claim4_counterexample :
    cylinderElliptic EPS c4copts =
      Except.ok (geom3.create (cylWall c4copts ++ cylWedge c4copts)) ∧
    ¬ ∃ n : Vec3, n ≠ ⟨0, 0, 0⟩ ∧ ∀ p ∈ (cylWedge c4copts).take 2, ∀ v ∈ p.vertices,
        onPlane n (vec3.fromList c4copts.center) v := by
  refine ⟨c4c_result, ?_⟩
  rintro ⟨⟨nx, ny, nz⟩, hn0, hmem⟩
  have hs3 : (0 : ℝ) < Real.sqrt 3 := Real.sqrt_pos.mpr (by norm_num)
  have hmem1 := hmem (cylFromPoints c4copts
    [cylStart c4copts, cylEnd c4copts, cylPointFn c4copts 0 0 c4copts.startRadius])
    (by simp [cylWedge])
  have hmem2 := hmem (cylFromPoints c4copts
    [cylPointFn c4copts 0 0 c4copts.startRadius, cylEnd c4copts,
      cylPointFn c4copts 1 0 c4copts.endRadius])
    (by simp [cylWedge])
  have eStart : vec3.dot ⟨nx, ny, nz⟩ (cylStart c4copts) = 0 := by
    have := hmem1 (vec3.add (cylStart c4copts) (vec3.fromList c4copts.center))
      (by simp [cylFromPoints, poly3.fromPoints])
    rwa [onPlane_add] at this
  have eA : vec3.dot ⟨nx, ny, nz⟩ (cylPointFn c4copts 0 0 c4copts.startRadius) = 0 := by
    have := hmem1 (vec3.add (cylPointFn c4copts 0 0 c4copts.startRadius)
      (vec3.fromList c4copts.center))
      (by simp [cylFromPoints, poly3.fromPoints])
    rwa [onPlane_add] at this
  have eB : vec3.dot ⟨nx, ny, nz⟩ (cylPointFn c4copts 1 0 c4copts.endRadius) = 0 := by
    have := hmem2 (vec3.add (cylPointFn c4copts 1 0 c4copts.endRadius)
      (vec3.fromList c4copts.center))
      (by simp [cylFromPoints, poly3.fromPoints])
    rwa [onPlane_add] at this
  rw [c4c_start] at eStart
  rw [c4c_p00] at eA
  rw [c4c_p10] at eB
  unfold vec3.dot at eStart eA eB
  simp only at eStart eA eB
  have hz : nz = 0 := by linarith
  rw [hz] at eA eB
  have hyz : ny * Real.sqrt 3 = 0 := by linarith
  have hy : ny = 0 := by
    rcases mul_eq_zero.mp hyz with h | h
    · exact h
    · exact absurd h hs3.ne'
  have hx : nx = 0 := by
    rw [hy] at eA
    linarith
  exact hn0 (by rw [Vec3.mk.injEq]; exact ⟨hx, hy, hz⟩)

/-- Failing input for C1: a partial sweep of pi/3 with segments 4 passes
every validation, yet floor(4 * (pi/3) / (2*pi)) = 0 angular slices are
generated: the mesh consists of the four wedge polygons alone. -/
noncomputable def c1opts : CylOpts := ⟨[0, 0, 0], 2, (1, 1), 0, (1, 1), Real.pi / 3, 4⟩

lemma c1_sa : cylStartAngleN c1opts = 0 := jsmod_zero _

lemma c1_ea : cylEndAngleN c1opts = Real.pi / 3 := by
  have hpi := Real.pi_pos
  unfold cylEndAngleN
  rw [show c1opts.endAngle = Real.pi / 3 from rfl]
  exact jsmod_eq_self (by positivity) (by linarith)

lemma c1_rotation : cylRotation c1opts = Real.pi / 3 := by
  have hpi := Real.pi_pos
  unfold cylRotation
  rw [c1_sa, c1_ea, if_pos (by positivity)]
  ring

lemma c1_slices : cylSlices c1opts = 0 := by
  unfold cylSlices
  have h6 : (c1opts.segments : ℝ) * (cylRotation c1opts / (Real.pi * 2)) = 2 / 3 := by
    rw [c1_rotation]
    have hpi := Real.pi_ne_zero
    rw [show (c1opts.segments : ℝ) = 4 by norm_num [c1opts]]
    field_simp
    ring
  rw [h6]
  rw [show ⌊(2 : ℝ) / 3⌋ = 0 by rw [Int.floor_eq_iff]; norm_num]
  rfl

lemma c1_wall : cylWall c1opts = [] := by
  unfold cylWall
  rw [c1_slices]
  rfl

lemma c1_height : (0 : ℝ) < c1opts.height := by norm_num [c1opts]

lemma c1_p00 : cylPointFn c1opts 0 0 c1opts.startRadius = (⟨1, 0, -1⟩ : Vec3) := by
  rw [cylPointFn_eval c1opts c1_height,
    show (0 : ℝ) * cylRotation c1opts + cylStartAngleN c1opts = 0 by rw [c1_sa]; ring]
  rw [Vec3.mk.injEq, Real.cos_zero, Real.sin_zero]
  norm_num [c1opts]

lemma c1_p10 : cylPointFn c1opts 1 0 c1opts.endRadius = (⟨1, 0, 1⟩ : Vec3) := by
  rw [cylPointFn_eval c1opts c1_height,
    show (0 : ℝ) * cylRotation c1opts + cylStartAngleN c1opts = 0 by rw [c1_sa]; ring]
  rw [Vec3.mk.injEq, Real.cos_zero, Real.sin_zero]
  norm_num [c1opts]

lemma c1_p01 : cylPointFn c1opts 0 1 c1opts.startRadius =
    (⟨1 / 2, -(Real.sqrt 3 / 2), -1⟩ : Vec3) := by
  rw [cylPointFn_eval c1opts c1_height,
    show (1 : ℝ) * cylRotation c1opts + cylStartAngleN c1opts = Real.pi / 3 by
      rw [c1_sa, c1_rotation]; ring]
  rw [Vec3.mk.injEq, Real.cos_pi_div_three, Real.sin_pi_div_three]
  norm_num [c1opts]

lemma c1_p11 : cylPointFn c1opts 1 1 c1opts.endRadius =
    (⟨1 / 2, -(Real.sqrt 3 / 2), 1⟩ : Vec3) := by
  rw [cylPointFn_eval c1opts c1_height,
    show (1 : ℝ) * cylRotation c1opts + cylStartAngleN c1opts = Real.pi / 3 by
      rw [c1_sa, c1_rotation]; ring]
  rw [Vec3.mk.injEq, Real.cos_pi_div_three, Real.sin_pi_div_three]
  norm_num [c1opts]

lemma c1_startv : cylStart c1opts = (⟨0, 0, -1⟩ : Vec3) := by
  unfold cylStart vec3.fromValues
  rw [Vec3.mk.injEq]
  norm_num [c1opts]

lemma c1_endv : cylEnd c1opts = (⟨0, 0, 1⟩ : Vec3) := by
  unfold cylEnd vec3.fromValues
  rw [Vec3.mk.injEq]
  norm_num [c1opts]

/-- The concrete mesh returned on the C1 failing input: the four wedge
polygons and nothing else. -/
noncomputable def c1mesh : Geom3 := geom3.create
  [⟨[⟨0, 0, -1⟩, ⟨0, 0, 1⟩, ⟨1, 0, -1⟩]⟩,
   ⟨[⟨1, 0, -1⟩, ⟨0, 0, 1⟩, ⟨1, 0, 1⟩]⟩,
   ⟨[⟨0, 0, -1⟩, ⟨1 / 2, -(Real.sqrt 3 / 2), -1⟩, ⟨0, 0, 1⟩]⟩,
   ⟨[⟨1 / 2, -(Real.sqrt 3 / 2), -1⟩, ⟨1 / 2, -(Real.sqrt 3 / 2), 1⟩, ⟨0, 0, 1⟩]⟩]

lemma c1_wedge : cylWedge c1opts = c1mesh.polygons := by
  unfold cylWedge c1mesh geom3.create
  rw [c1_p00, c1_p01, c1_p10, c1_p11, c1_startv, c1_endv]
  simp only [cylFromPoints, poly3.fromPoints, List.map_cons, List.map_nil]
  norm_num [vec3.add, vec3.fromList, c1opts, Vec3.mk.injEq, Poly3.mk.injEq]

lemma c1_result : cylinderElliptic EPS c1opts = Except.ok c1mesh := by
  have hpi := Real.pi_pos
  rw [cylinderElliptic_eq_ok]
  · rw [if_pos (by rw [c1_rotation]; linarith), c1_wall, List.nil_append, c1_wedge]
    rfl
  · norm_num [c1opts]
  · norm_num [c1opts, EPS]
  · norm_num [c1opts]
  · norm_num [c1opts]
    positivity
  · norm_num [c1opts]
  · have hmin : cylMinRadius c1opts = 1 := by
      norm_num [cylMinRadius, c1opts]
    have hma : cylMinAngle EPS c1opts ≤ Real.pi / 3 := by
      unfold cylMinAngle
      rw [hmin]
      calc Real.arccos ((1 * 1 + 1 * 1 - EPS * EPS) / (2 * (1 * 1)))
          ≤ Real.arccos (1 / 2) := arccos_anti (by norm_num [EPS])
        _ = Real.pi / 3 := arccos_half
    rw [c1_rotation]
    exact not_lt.mpr hma

/-- C1 is violated by the source: on the failing input the accepted
configuration produces a four-polygon open shell; the directed edge from
(1,0,1) to (1,0,-1) occurs in the mesh while its reverse occurs in no
polygon, so this edge is not shared by two polygons with opposite winding. -/
theorem claim1_open_shell_bug :
    cylinderElliptic EPS c1opts = Except.ok c1mesh ∧
    ((⟨1, 0, 1⟩ : Vec3), (⟨1, 0, -1⟩ : Vec3)) ∈ geom3.edges c1mesh ∧
    ((⟨1, 0, -1⟩ : Vec3), (⟨1, 0, 1⟩ : Vec3)) ∉ geom3.edges c1mesh := by
  have hs3 : (0 : ℝ) < Real.sqrt 3 := Real.sqrt_pos.mpr (by norm_num)
  refine ⟨c1_result, ?_, ?_⟩
  · simp [c1mesh, geom3.edges, poly3.edges, geom3.create, List.rotate]
  · simp only [c1mesh, geom3.edges, geom3.create]
    norm_num [poly3.edges, List.rotate, Prod.ext_iff, Vec3.mk.injEq]
